import Mathlib

/-!
Verification of the Water Intake Tracker (src/app.py).

The program keeps a single in-memory intake value (`current_intake`, a
tkinter DoubleVar) and persists a JSON record `{"date": ..., "intake": ...}`
to a single file.  We embed the state-and-persistence logic shallowly:

* numeric amounts are modelled as rationals `ℚ` (the Python code performs
  only single additions, subtractions and comparisons on them);
* the persisted file is `FileState`: missing (`FileNotFoundError`),
  unparsable (`json.JSONDecodeError`), or a parsed JSON object whose
  `"date"` and `"intake"` keys may each be absent (`data.get(...)`);
* `AppState` additionally carries a `writes` counter, incremented exactly
  when `save_data` runs, so that "no persistence write occurs" is statable;
* `add_water` returns, besides the new state, the Boolean that guards the
  goal-reached message (line 104 of app.py).
-/

namespace WaterTracker

/-- `DAILY_GOAL = 2000` (app.py line 8). -/
def DAILY_GOAL : ℚ := 2000

/-- A parsed JSON object as `load_data` consumes it: the `"date"` and
`"intake"` keys may each be present or absent (`data.get` semantics). -/
structure StoredObj where
  dateField : Option String
  intakeField : Option ℚ
  deriving DecidableEq

/-- The persisted file: missing (`FileNotFoundError`), unparsable
(`json.JSONDecodeError`), or holding a parsed object. -/
inductive FileState where
  | missing : FileState
  | corrupt : FileState
  | stored : StoredObj → FileState
  deriving DecidableEq

/-- Program state: the on-disk file, the in-memory `current_intake`
DoubleVar, and a counter of persistence writes performed so far. -/
structure AppState where
  file : FileState
  current_intake : ℚ
  writes : ℕ
  deriving DecidableEq

/-- `save_data` (app.py lines 76-85): writes `{"date": str(date.today()),
"intake": self.current_intake.get()}`, wholesale, to the file. -/
def save_data (today : String) (s : AppState) : AppState :=
  AppState.mk (FileState.stored (StoredObj.mk (some today) (some s.current_intake)))
    s.current_intake (s.writes + 1)

/-- `load_data` (app.py lines 56-74): reads the file; if the parsed
object's `"date"` equals today, sets `current_intake` to
`data.get("intake", 0.0)`; otherwise resets to `0.0` and calls
`save_data`; on `FileNotFoundError`/`JSONDecodeError` sets `0.0`. -/
def load_data (today : String) (s : AppState) : AppState :=
  match s.file with
  | FileState.stored obj =>
      if obj.dateField = some today then
        AppState.mk s.file (obj.intakeField.getD 0) s.writes
      else
        save_data today (AppState.mk s.file 0 s.writes)
  | _ => AppState.mk s.file 0 s.writes

/-- `add_water` (app.py lines 87-105): early-returns when
`current_intake >= DAILY_GOAL`; otherwise adds, saves, and shows the
goal-reached message iff `new_intake >= DAILY_GOAL and
(new_intake - amount_ml) < DAILY_GOAL`.  The Boolean is that guard. -/
def add_water (today : String) (amount_ml : ℚ) (s : AppState) : AppState × Bool :=
  if DAILY_GOAL ≤ s.current_intake then
    (s, false)
  else
    let new_intake := s.current_intake + amount_ml
    (save_data today (AppState.mk s.file new_intake s.writes),
      decide (DAILY_GOAL ≤ new_intake ∧ new_intake - amount_ml < DAILY_GOAL))

/-- `reset_day` (app.py lines 107-114), after the user confirms the
prompt (the yes/no confirmation gate is a presentation-layer concern):
sets `current_intake` to `0.0` and saves. -/
def reset_day (today : String) (s : AppState) : AppState :=
  save_data today (AppState.mk s.file 0 s.writes)

/-- The persisted entity of the data model: a date with an intake. -/
structure DailyRecord where
  date : String
  intake_ml : ℚ
  deriving DecidableEq

/-- The session's daily record: the in-memory intake, which is always
today's (the program holds only today's value). -/
def sessionRecord (today : String) (s : AppState) : DailyRecord :=
  DailyRecord.mk today s.current_intake

/-- The read-only result type handed to the presentation layer.  Fields
follow `update_display` (app.py lines 116-135): the status label shows
`DAILY_GOAL - current_intake` remaining when below goal, and a
"Goal Achieved" message (remaining 0) otherwise. -/
structure Snapshot where
  intake_ml : ℚ
  goal_ml : ℚ
  goal_just_reached : Bool
  remaining_ml : ℚ
  deriving DecidableEq

/-- Build the snapshot `update_display` renders for a given intake,
together with the goal-message flag of the triggering operation. -/
def mkSnapshot (intake : ℚ) (gjr : Bool) : Snapshot :=
  Snapshot.mk intake DAILY_GOAL gjr (max 0 (DAILY_GOAL - intake))

/-- A file satisfies the data-model invariant when any stored intake
value is non-negative. -/
def FileState.wf : FileState → Prop
  | FileState.stored obj =>
      match obj.intakeField with
      | some v => 0 ≤ v
      | none => True
  | _ => True

/-- States reachable from an initial state `s₀` by the initial `load_data`
followed by any sequence of `add_water` with positive amount, `reset_day`,
and further `load_data` calls (all on the same day `today`). -/
inductive Reachable (today : String) (s₀ : AppState) : AppState → Prop where
  | init : Reachable today s₀ (load_data today s₀)
  | add (s : AppState) (a : ℚ) (ha : 0 < a) (h : Reachable today s₀ s) :
      Reachable today s₀ (add_water today a s).1
  | reset (s : AppState) (h : Reachable today s₀ s) :
      Reachable today s₀ (reset_day today s)
  | load (s : AppState) (h : Reachable today s₀ s) :
      Reachable today s₀ (load_data today s)

/-- `save_data` preserves the invariant from a non-negative intake. -/
lemma save_data_inv (today : String) (s : AppState) (h : 0 ≤ s.current_intake) :
    0 ≤ (save_data today s).current_intake ∧ (save_data today s).file.wf := by
  exact ⟨h, h⟩

/-- `load_data` establishes the invariant from a well-formed file. -/
lemma load_data_inv (today : String) (s : AppState) (h : s.file.wf) :
    0 ≤ (load_data today s).current_intake ∧ (load_data today s).file.wf := by
  obtain ⟨f, i, w⟩ := s
  cases f with
  | missing => exact ⟨le_refl 0, trivial⟩
  | corrupt => exact ⟨le_refl 0, trivial⟩
  | stored obj =>
      by_cases hd : obj.dateField = some today
      · cases hi : obj.intakeField with
        | none =>
            constructor
            · simp [load_data, hd, hi]
            · simpa [load_data, hd] using h
        | some v =>
            have hv : 0 ≤ v := by
              simpa [FileState.wf, hi] using h
            simpa [load_data, hd, hi, FileState.wf] using hv
      · simp only [load_data, if_neg hd]
        exact save_data_inv today _ (le_refl 0)

/-- `add_water` with a positive amount preserves the invariant. -/
lemma add_water_inv (today : String) (a : ℚ) (s : AppState) (ha : 0 < a)
    (h : 0 ≤ s.current_intake ∧ s.file.wf) :
    0 ≤ (add_water today a s).1.current_intake ∧ (add_water today a s).1.file.wf := by
  by_cases hg : DAILY_GOAL ≤ s.current_intake
  · simpa [add_water, hg] using h
  · simp only [add_water, if_neg hg]
    exact save_data_inv today _ (show (0:ℚ) ≤ s.current_intake + a by linarith [h.1])

/-- `reset_day` establishes the invariant unconditionally. -/
lemma reset_day_inv (today : String) (s : AppState) :
    0 ≤ (reset_day today s).current_intake ∧ (reset_day today s).file.wf :=
  save_data_inv today _ (le_refl 0)

/-- From any initial state one can reach a state with arbitrarily large
intake: reset, then add a single large amount. -/
lemma reachable_unbounded (today : String) (s₀ : AppState) (B : ℚ) :
    ∃ t, Reachable today s₀ t ∧ B < t.current_intake := by
  have hmax : (0 : ℚ) ≤ max B 0 := le_max_right B 0
  refine ⟨(add_water today (max B 0 + 1) (reset_day today (load_data today s₀))).1,
    Reachable.add _ _ (by linarith) (Reachable.reset _ Reachable.init), ?_⟩
  have hlt : ¬ DAILY_GOAL ≤ (reset_day today (load_data today s₀)).current_intake := by
    simp [reset_day, save_data, DAILY_GOAL]
  simp only [add_water, if_neg hlt, reset_day, save_data]
  have hB : B ≤ max B 0 := le_max_left B 0
  show B < (0:ℚ) + (max B 0 + 1)
  linarith

/-- Claim C1: whenever the current intake is at or above the goal before the
call, `add_water` is a no-op for every amount: the in-memory intake, the
persisted file and the write counter are all unchanged (no persistence
write occurs), and the goal message is not shown. -/
theorem add_water_noop_of_goal_met (today : String) (amount_ml : ℚ) (s : AppState)
    (h : DAILY_GOAL ≤ s.current_intake) :
    add_water today amount_ml s = (s, false) := by
  simp [add_water, h]

/-- Witness for C1 at a concrete over-goal state. -/
theorem add_water_noop_of_goal_met_witness :
    DAILY_GOAL ≤ (AppState.mk FileState.missing 2500 0).current_intake ∧
    add_water "2024-06-01" 250 (AppState.mk FileState.missing 2500 0) =
      (AppState.mk FileState.missing 2500 0, false) :=
  ⟨by norm_num [DAILY_GOAL],
    add_water_noop_of_goal_met "2024-06-01" 250 _ (by norm_num [DAILY_GOAL])⟩

/-- Claim C2: for every positive amount and every state strictly below the
goal, `add_water` sets the intake to exactly the old intake plus the amount
and persists that new value (today's date, new intake, one more write). -/
theorem add_water_adds_and_persists (today : String) (amount_ml : ℚ) (s : AppState)
    (ha : 0 < amount_ml) (h : s.current_intake < DAILY_GOAL) :
    (add_water today amount_ml s).1.current_intake = s.current_intake + amount_ml ∧
    (add_water today amount_ml s).1.file =
      FileState.stored (StoredObj.mk (some today) (some (s.current_intake + amount_ml))) ∧
    (add_water today amount_ml s).1.writes = s.writes + 1 := by
  simp [add_water, not_le.mpr h, save_data]

/-- Witness for C2 at a concrete below-goal state. -/
theorem add_water_adds_and_persists_witness :
    (0:ℚ) < 250 ∧ (AppState.mk FileState.missing 0 0).current_intake < DAILY_GOAL ∧
    ((add_water "2024-06-01" 250 (AppState.mk FileState.missing 0 0)).1.current_intake =
        (AppState.mk FileState.missing 0 0).current_intake + 250 ∧
      (add_water "2024-06-01" 250 (AppState.mk FileState.missing 0 0)).1.file =
        FileState.stored (StoredObj.mk (some "2024-06-01")
          (some ((AppState.mk FileState.missing 0 0).current_intake + 250))) ∧
      (add_water "2024-06-01" 250 (AppState.mk FileState.missing 0 0)).1.writes =
        (AppState.mk FileState.missing 0 0).writes + 1) :=
  ⟨by norm_num, by norm_num [DAILY_GOAL],
    add_water_adds_and_persists "2024-06-01" 250 _ (by norm_num) (by norm_num [DAILY_GOAL])⟩

/-- Claim C3: the goal-reached message is produced exactly when the
pre-call intake is strictly below the goal and the post-call intake is at
or above it; in particular it is false on any call made while the goal is
already met (the early-return branch). -/
theorem add_water_goal_crossing_iff (today : String) (amount_ml : ℚ) (s : AppState) :
    (add_water today amount_ml s).2 = true ↔
      (s.current_intake < DAILY_GOAL ∧
        DAILY_GOAL ≤ (add_water today amount_ml s).1.current_intake) := by
  by_cases h : DAILY_GOAL ≤ s.current_intake
  · simp [add_water, h, not_lt.mpr h]
  · have h3 : s.current_intake < DAILY_GOAL := not_le.mp h
    simp [add_water, h, save_data, h3, add_sub_cancel_right]

/-- Claim C4: `save_data` overwrites the persisted content with exactly
the pair of the session record's date and intake, wholesale, no matter
what the file held before. -/
theorem save_data_overwrites_exact (today : String) (s : AppState) :
    (save_data today s).file =
      FileState.stored (StoredObj.mk (some (sessionRecord today s).date)
        (some (sessionRecord today s).intake_ml)) := rfl

/-- Claim C5: loading a stored record whose date field is not today yields
intake 0 and immediately persists a record with today's date and zero
intake (exactly one write). -/
theorem load_data_rollover_resets_and_persists (today : String) (s : AppState)
    (obj : StoredObj) (hf : s.file = FileState.stored obj)
    (hd : obj.dateField ≠ some today) :
    (load_data today s).current_intake = 0 ∧
    (load_data today s).file = FileState.stored (StoredObj.mk (some today) (some 0)) ∧
    (load_data today s).writes = s.writes + 1 := by
  obtain ⟨f, i, w⟩ := s
  have hf2 : f = FileState.stored obj := hf
  subst hf2
  simp [load_data, hd, save_data]

/-- Witness for C5 at a concrete yesterday-dated file. -/
theorem load_data_rollover_resets_and_persists_witness :
    (AppState.mk (FileState.stored (StoredObj.mk (some "2024-05-31") (some 500))) 500 0).file =
      FileState.stored (StoredObj.mk (some "2024-05-31") (some 500)) ∧
    (StoredObj.mk (some "2024-05-31") ((some 500 : Option ℚ))).dateField ≠ some "2024-06-01" ∧
    ((load_data "2024-06-01"
        (AppState.mk (FileState.stored (StoredObj.mk (some "2024-05-31") (some 500))) 500 0)).current_intake = 0 ∧
      (load_data "2024-06-01"
        (AppState.mk (FileState.stored (StoredObj.mk (some "2024-05-31") (some 500))) 500 0)).file =
        FileState.stored (StoredObj.mk (some "2024-06-01") (some 0)) ∧
      (load_data "2024-06-01"
        (AppState.mk (FileState.stored (StoredObj.mk (some "2024-05-31") (some 500))) 500 0)).writes =
        (AppState.mk (FileState.stored (StoredObj.mk (some "2024-05-31") (some 500))) 500 0).writes + 1) :=
  ⟨rfl, by decide,
    load_data_rollover_resets_and_persists "2024-06-01" _ _ rfl (by decide)⟩

/-- Claim C6: when the file is missing or unparsable, `load_data` yields
the same zeroed, today-dated default record as a day-rollover does
(`FileNotFoundError` and `JSONDecodeError` are both caught, so nothing is
raised to the caller; the embedding is total on these cases). -/
theorem load_data_missing_or_corrupt_default (today : String) (s : AppState)
    (h : s.file = FileState.missing ∨ s.file = FileState.corrupt) :
    sessionRecord today (load_data today s) = DailyRecord.mk today 0 ∧
    (load_data today s).current_intake = 0 := by
  obtain ⟨f, i, w⟩ := s
  rcases h with h | h <;>
    · have h2 : f = _ := h
      subst h2
      simp [load_data, sessionRecord]

/-- Witness for C6 at a concrete missing file. -/
theorem load_data_missing_or_corrupt_default_witness :
    ((AppState.mk FileState.missing 7 2).file = FileState.missing ∨
      (AppState.mk FileState.missing 7 2).file = FileState.corrupt) ∧
    (sessionRecord "2024-06-01" (load_data "2024-06-01" (AppState.mk FileState.missing 7 2)) =
        DailyRecord.mk "2024-06-01" 0 ∧
      (load_data "2024-06-01" (AppState.mk FileState.missing 7 2)).current_intake = 0) :=
  ⟨Or.inl rfl,
    load_data_missing_or_corrupt_default "2024-06-01" _ (Or.inl rfl)⟩

/-- Claim C7: in every state, `reset_day` (once confirmed) sets the intake
to 0, persists the zeroed record (exactly one write), and the resulting
snapshot has intake 0, `goal_just_reached = false` (the reset path never
triggers the goal message), and remaining equal to the full goal. -/
theorem reset_day_zeroes_and_persists (today : String) (s : AppState) :
    (reset_day today s).current_intake = 0 ∧
    (reset_day today s).file = FileState.stored (StoredObj.mk (some today) (some 0)) ∧
    (reset_day today s).writes = s.writes + 1 ∧
    mkSnapshot (reset_day today s).current_intake false =
      Snapshot.mk 0 DAILY_GOAL false DAILY_GOAL := by
  refine ⟨rfl, rfl, rfl, ?_⟩
  norm_num [mkSnapshot, reset_day, save_data, DAILY_GOAL]

/-- Claim C8: persisting the current record and then loading on the same
day returns a record equal to the one saved (save-then-load round-trip). -/
theorem save_then_load_roundtrip (today : String) (s : AppState) :
    sessionRecord today (load_data today (save_data today s)) = sessionRecord today s := by
  simp [load_data, save_data, sessionRecord]

/-- Claim C9: starting from an initial load of a well-formed file (any
stored intake non-negative, the data-model invariant), every state
reachable by `load_data`, `add_water` with positive amount and `reset_day`
has non-negative in-memory intake and a well-formed (non-negative)
persisted file; moreover no upper bound is enforced: states with intake
above any bound are reachable. -/
theorem intake_nonneg_invariant (today : String) (s₀ s : AppState)
    (h₀ : s₀.file.wf) (h : Reachable today s₀ s) :
    (0 ≤ s.current_intake ∧ s.file.wf) ∧
    ∀ B : ℚ, ∃ t, Reachable today s₀ t ∧ B < t.current_intake := by
  refine ⟨?_, fun B => reachable_unbounded today s₀ B⟩
  induction h with
  | init => exact load_data_inv today s₀ h₀
  | add s a ha hr ih => exact add_water_inv today a s ha ih
  | reset s hr ih => exact reset_day_inv today s
  | load s hr ih => exact load_data_inv today s ih.2

/-- Witness for C9: the initial load of a missing file. -/
theorem intake_nonneg_invariant_witness :
    (AppState.mk FileState.missing 0 0).file.wf ∧
    ((0 ≤ (load_data "2024-06-01" (AppState.mk FileState.missing 0 0)).current_intake ∧
        (load_data "2024-06-01" (AppState.mk FileState.missing 0 0)).file.wf) ∧
      ∀ B : ℚ, ∃ t, Reachable "2024-06-01" (AppState.mk FileState.missing 0 0) t ∧
          B < t.current_intake) :=
  ⟨trivial, intake_nonneg_invariant "2024-06-01" _ _ trivial Reachable.init⟩

/-- Claim C10: a parsed file dated today but with no intake key loads as
intake 0, without being treated as corrupt: the file is left untouched and
no reset-save happens (write counter unchanged). -/
theorem load_data_missing_intake_key_defaults_zero (today : String) (s : AppState)
    (obj : StoredObj) (hf : s.file = FileState.stored obj)
    (hd : obj.dateField = some today) (hi : obj.intakeField = none) :
    (load_data today s).current_intake = 0 ∧
    (load_data today s).file = s.file ∧
    (load_data today s).writes = s.writes := by
  obtain ⟨f, i, w⟩ := s
  have hf2 : f = FileState.stored obj := hf
  subst hf2
  simp [load_data, hd, hi]

/-- Witness for C10 at a concrete today-dated file with no intake key. -/
theorem load_data_missing_intake_key_defaults_zero_witness :
    (AppState.mk (FileState.stored (StoredObj.mk (some "2024-06-01") none)) 3 5).file =
      FileState.stored (StoredObj.mk (some "2024-06-01") none) ∧
    (StoredObj.mk (some "2024-06-01") (none : Option ℚ)).dateField = some "2024-06-01" ∧
    (StoredObj.mk (some "2024-06-01") (none : Option ℚ)).intakeField = none ∧
    ((load_data "2024-06-01"
        (AppState.mk (FileState.stored (StoredObj.mk (some "2024-06-01") none)) 3 5)).current_intake = 0 ∧
      (load_data "2024-06-01"
        (AppState.mk (FileState.stored (StoredObj.mk (some "2024-06-01") none)) 3 5)).file =
        (AppState.mk (FileState.stored (StoredObj.mk (some "2024-06-01") none)) 3 5).file ∧
      (load_data "2024-06-01"
        (AppState.mk (FileState.stored (StoredObj.mk (some "2024-06-01") none)) 3 5)).writes =
        (AppState.mk (FileState.stored (StoredObj.mk (some "2024-06-01") none)) 3 5).writes) :=
  ⟨rfl, rfl, rfl,
    load_data_missing_intake_key_defaults_zero "2024-06-01" _ _ rfl rfl rfl⟩

end WaterTracker
